import Mathlib

/-!
# Verification of the pide petrophysical toolkit against its specification

Shallow embedding of the parts of the `pide`/`SEL` engines that the checked
claims are about, translated from the Python sources:

* `pide/pide.py` (and its near-duplicate `SEL/SEL.py`): the core engine —
  `calculate_arrhenian_single`, `check_composition`,
  `set_composition_solid_mineral` / `set_composition_solid_rock`,
  `calculate_fugacity`, `phase_mixing_function` (solid methods 3 and 4),
  `set_phase_interconnectivities`, `set_melt_fluid_interconnectivity`,
  `set_o2_buffer`, `set_solid_phs_mix_method`;
* `pide/model.py` (and `SEL/model.py`): `Model.calculate_conductivity`'s
  grid assembly and zero-to-NaN conversion;
* `cate_src/cond_models/fluids_odd.py`: `Sinmyo2016`, `Guo2019`,
  `Manthilake2021_Aqueous`;
* `pide/pide_src/water_sol/ol_sol.py`: `Ferot2012_OlSol`.

Conventions of the embedding:

* Purely algebraic/comparison code (composition checks, interconnectivity
  guards, the mixing formulas, the model-grid assembly) is embedded over `ℚ`
  so that it stays executable and witnesses can be checked by `decide`.
  Transcendental formulas (`exp`, real exponents) are embedded over `ℝ`.
* Python exceptions (`ValueError`, `NameError`, `IndexError`) are modelled by
  `Except String`; the string is the message of the raised exception.
* A numpy NaN written into the output grid is modelled by `Option.none`.
* Python class attributes versus instance attributes (the engines store the
  selection fields on the class) are modelled by an explicit process state
  holding the class `__dict__` entry and the per-instance `__dict__` entries.
-/

/- The gas constant, row 1 of `params.csv`, also the module-level constant
`R_const` of `cate_src/cond_models/fluids_odd.py` and
`pide/pide_src/water_sol/ol_sol.py`. -/
def R_const : ℝ := 8.3144621

namespace pide

/-- From `pide/pide.py`, lines 2018–2025 (identically `SEL/SEL.py`
lines 1689–1697):

```
def calculate_arrhenian_single(self, T, sigma, E, r, alpha, water):
    if (sigma == 0.0) and (E == 0.0):
        cond = 0.0
    else:
        cond = (10.0**sigma) * (water**r) * np.exp(-(E + (alpha * water)**(1.0/3.0)) / (self.R * T))
    return cond
```

`self.R` (the gas constant read from `params.csv`) is passed explicitly as
the first argument `R`. -/
noncomputable def calculate_arrhenian_single (R T sigma E r alpha water : ℝ) : ℝ :=
  if sigma = 0 ∧ E = 0 then 0
  else (10 : ℝ) ^ sigma * water ^ r *
    Real.exp (-(E + (alpha * water) ^ ((1 : ℝ) / 3)) / (R * T))

end pide

/-- C1: `calculate_arrhenian_single(T, sigma, E, r, alpha, water)` returns
exactly 0 when both `sigma == 0` and `E == 0`; otherwise it returns
`10^sigma * water^r * exp(-(E + (alpha*water)^(1/3)) / (R*T))` with
`R = 8.3144621`. -/
theorem C1_arrhenian_single (T sigma E r alpha water : ℝ) :
    (sigma = 0 → E = 0 →
      pide.calculate_arrhenian_single 8.3144621 T sigma E r alpha water = 0) ∧
    (sigma ≠ 0 ∨ E ≠ 0 →
      pide.calculate_arrhenian_single 8.3144621 T sigma E r alpha water =
        (10 : ℝ) ^ sigma * water ^ r *
          Real.exp (-(E + (alpha * water) ^ ((1 : ℝ) / 3)) / (8.3144621 * T))) := by
  constructor
  · intro hs hE
    simp [pide.calculate_arrhenian_single, hs, hE]
  · intro h
    rw [pide.calculate_arrhenian_single, if_neg]
    tauto

/-- Witness for C1 at concrete inputs: the disabled-mechanism branch at
`T = 900`, `sigma = E = 0`, and the generic branch at `sigma = 2`. -/
theorem C1_arrhenian_single_witness :
    pide.calculate_arrhenian_single 8.3144621 900 0 0 1 2 3 = 0 ∧
    pide.calculate_arrhenian_single 8.3144621 900 2 5 1 2 3 =
      (10 : ℝ) ^ (2 : ℝ) * (3 : ℝ) ^ (1 : ℝ) *
        Real.exp (-((5 : ℝ) + ((2 : ℝ) * 3) ^ ((1 : ℝ) / 3)) / (8.3144621 * 900)) := by
  constructor
  · exact (C1_arrhenian_single 900 0 0 1 2 3).1 rfl rfl
  · exact (C1_arrhenian_single 900 2 5 1 2 3).2 (Or.inl (by norm_num))

namespace pide

/-- One sample node's mineral volume fractions, the sixteen `*_frac`
attributes participating in `check_composition(method = 'mineral')`
(`pide/pide.py`, lines 1081–1089). -/
structure MineralComp where
  quartz : ℚ
  plag : ℚ
  amp : ℚ
  kfelds : ℚ
  opx : ℚ
  cpx : ℚ
  mica : ℚ
  garnet : ℚ
  sulphide : ℚ
  graphite : ℚ
  ol : ℚ
  sp : ℚ
  rwd_wds : ℚ
  perov : ℚ
  mixture : ℚ
  other : ℚ
deriving DecidableEq

/-- One sample node's rock volume fractions, the nine `*_frac`
attributes participating in `check_composition(method = 'rock')`
(`pide/pide.py`, lines 1070–1078). -/
structure RockComp where
  granite : ℚ
  granulite : ℚ
  sandstone : ℚ
  gneiss : ℚ
  amphibolite : ℚ
  basalt : ℚ
  mud : ℚ
  gabbro : ℚ
  other_rock : ℚ
deriving DecidableEq

/-- The per-node total of `check_composition(method = 'mineral')`:
`tot = quartz_frac + plag_frac + amp_frac + kfelds_frac + opx_frac + cpx_frac
+ mica_frac + garnet_frac + sulphide_frac + graphite_frac + ol_frac + sp_frac
+ rwd_wds_frac + perov_frac + mixture_frac + other_frac`. -/
def mineral_tot (c : MineralComp) : ℚ :=
  c.quartz + c.plag + c.amp + c.kfelds + c.opx + c.cpx + c.mica + c.garnet +
    c.sulphide + c.graphite + c.ol + c.sp + c.rwd_wds + c.perov + c.mixture + c.other

/-- The per-node total of `check_composition(method = 'rock')`:
`tot = granite_frac + granulite_frac + sandstone_frac + gneiss_frac +
amphibolite_frac + basalt_frac + mud_frac + gabbro_frac + other_rock_frac`. -/
def rock_tot (c : RockComp) : ℚ :=
  c.granite + c.granulite + c.sandstone + c.gneiss + c.amphibolite + c.basalt +
    c.mud + c.gabbro + c.other_rock

/-- `pide.check_composition` (`pide/pide.py`, lines 1066–1096), one branch per
`method`, over the list of sample nodes:

```
continue_adjusting = True
tot = <sum of the active phase set's fraction arrays>
if any(item <= 0.99 for item in tot) == True:
    continue_adjusting = False
if any(item >= 1.01 for item in tot) == True:
    continue_adjusting = False
return continue_adjusting
```

Both branches share this shape; the embedding takes the per-node totals. -/
def check_composition (tot : List ℚ) : Bool :=
  !(tot.any (fun item => item ≤ 0.99)) && !(tot.any (fun item => item ≥ 1.01))

/-- `pide.set_composition_solid_mineral` (`pide/pide.py`, lines 830–903), the
`overlookError = False` path after the fraction arrays are populated: raise a
`ValueError` if any entry of any mineral fraction array is negative, then
raise a `ValueError` if `check_composition(method = 'mineral')` is `False`.
(The intermediate `*_frac_wt` normalisation raises nothing — numpy division
by zero only warns — and is irrelevant to the checks, so it is omitted.) -/
def set_composition_solid_mineral (comps : List MineralComp) : Except String Unit :=
  if comps.any (fun c =>
      c.quartz < 0 || c.plag < 0 || c.amp < 0 || c.kfelds < 0 || c.opx < 0 ||
      c.cpx < 0 || c.mica < 0 || c.garnet < 0 || c.sulphide < 0 || c.graphite < 0 ||
      c.ol < 0 || c.sp < 0 || c.rwd_wds < 0 || c.perov < 0 || c.mixture < 0 ||
      c.other < 0) then
    .error "There is a value entered in mineral fraction contents that is below zero."
  else if check_composition (comps.map mineral_tot) = false then
    .error "The values entered in mineral composition do not add up to 1."
  else
    .ok ()

/-- `pide.set_composition_solid_rock` (`pide/pide.py`, lines 905–952), the
`overlookError = False` path: negativity check over the nine rock fraction
arrays, then `check_composition(method = 'rock')`. -/
def set_composition_solid_rock (comps : List RockComp) : Except String Unit :=
  if comps.any (fun c =>
      c.granite < 0 || c.granulite < 0 || c.sandstone < 0 || c.gneiss < 0 ||
      c.amphibolite < 0 || c.basalt < 0 || c.mud < 0 || c.gabbro < 0 ||
      c.other_rock < 0) then
    .error "There is a value entered in rock fraction contents that is below zero."
  else if check_composition (comps.map rock_tot) = false then
    .error "The entered in rock composition do not add up to 1."
  else
    .ok ()

end pide

/-- Characterisation of `check_composition`: it returns `True` exactly when
every node total lies strictly between 0.99 and 1.01. -/
lemma check_composition_iff (tot : List ℚ) :
    pide.check_composition tot = true ↔ ∀ x ∈ tot, 0.99 < x ∧ x < 1.01 := by
  simp only [pide.check_composition, Bool.and_eq_true, Bool.not_eq_true', List.any_eq_false,
    decide_eq_true_eq, not_le, ge_iff_le]
  exact ⟨fun h x hx => ⟨h.1 x hx, h.2 x hx⟩,
    fun h => ⟨fun x hx => (h x hx).1, fun x hx => (h x hx).2⟩⟩

/-- C2 counterexample: the claim says a sum of exactly `0.99` lies within the
accepted band, but `check_composition` tests `item <= 0.99`, so
`set_composition_solid_mineral` with `ol = 0.99` (all other fractions 0, all
non-negative) raises the value error instead of accepting. -/
theorem C2_composition_counterexample :
    pide.set_composition_solid_mineral
        [{ quartz := 0, plag := 0, amp := 0, kfelds := 0, opx := 0, cpx := 0,
           mica := 0, garnet := 0, sulphide := 0, graphite := 0, ol := 0.99,
           sp := 0, rwd_wds := 0, perov := 0, mixture := 0, other := 0 }] =
      .error "The values entered in mineral composition do not add up to 1." := by
  norm_num [pide.set_composition_solid_mineral, pide.check_composition, pide.mineral_tot]

/-- C2 (amended): for non-negative fraction assignments, the setters raise the
value error exactly when some node's total is `≤ 0.99` or `≥ 1.01`, and accept
exactly when every node's total lies strictly inside the open band
`(0.99, 1.01)` — totals of exactly `0.99` or exactly `1.01` are rejected. -/
theorem C2_composition_amended (mcomps : List pide.MineralComp) (rcomps : List pide.RockComp)
    (hm : ∀ c ∈ mcomps, 0 ≤ c.quartz ∧ 0 ≤ c.plag ∧ 0 ≤ c.amp ∧ 0 ≤ c.kfelds ∧
      0 ≤ c.opx ∧ 0 ≤ c.cpx ∧ 0 ≤ c.mica ∧ 0 ≤ c.garnet ∧ 0 ≤ c.sulphide ∧
      0 ≤ c.graphite ∧ 0 ≤ c.ol ∧ 0 ≤ c.sp ∧ 0 ≤ c.rwd_wds ∧ 0 ≤ c.perov ∧
      0 ≤ c.mixture ∧ 0 ≤ c.other)
    (hr : ∀ c ∈ rcomps, 0 ≤ c.granite ∧ 0 ≤ c.granulite ∧ 0 ≤ c.sandstone ∧
      0 ≤ c.gneiss ∧ 0 ≤ c.amphibolite ∧ 0 ≤ c.basalt ∧ 0 ≤ c.mud ∧
      0 ≤ c.gabbro ∧ 0 ≤ c.other_rock) :
    (pide.set_composition_solid_mineral mcomps = .ok () ↔
      ∀ c ∈ mcomps, 0.99 < pide.mineral_tot c ∧ pide.mineral_tot c < 1.01) ∧
    (pide.set_composition_solid_rock rcomps = .ok () ↔
      ∀ c ∈ rcomps, 0.99 < pide.rock_tot c ∧ pide.rock_tot c < 1.01) := by
  have hmneg : (mcomps.any fun c =>
      decide (c.quartz < 0) || decide (c.plag < 0) || decide (c.amp < 0) ||
      decide (c.kfelds < 0) || decide (c.opx < 0) || decide (c.cpx < 0) ||
      decide (c.mica < 0) || decide (c.garnet < 0) || decide (c.sulphide < 0) ||
      decide (c.graphite < 0) || decide (c.ol < 0) || decide (c.sp < 0) ||
      decide (c.rwd_wds < 0) || decide (c.perov < 0) || decide (c.mixture < 0) ||
      decide (c.other < 0)) = false := by
    rw [List.any_eq_false]
    intro c hc
    have h := hm c hc
    simp only [Bool.or_eq_true, decide_eq_true_eq, not_or, not_lt]
    tauto
  have hrneg : (rcomps.any fun c =>
      decide (c.granite < 0) || decide (c.granulite < 0) || decide (c.sandstone < 0) ||
      decide (c.gneiss < 0) || decide (c.amphibolite < 0) || decide (c.basalt < 0) ||
      decide (c.mud < 0) || decide (c.gabbro < 0) || decide (c.other_rock < 0)) = false := by
    rw [List.any_eq_false]
    intro c hc
    have h := hr c hc
    simp only [Bool.or_eq_true, decide_eq_true_eq, not_or, not_lt]
    tauto
  constructor
  · rw [pide.set_composition_solid_mineral, if_neg (by simp [hmneg])]
    rcases hb : pide.check_composition (mcomps.map pide.mineral_tot) with _ | _
    · rw [if_pos rfl]
      simp only [reduceCtorEq, false_iff]
      intro hall
      have : pide.check_composition (mcomps.map pide.mineral_tot) = true := by
        rw [check_composition_iff]
        intro x hx
        obtain ⟨c, hc, rfl⟩ := List.mem_map.mp hx
        exact hall c hc
      rw [this] at hb
      exact Bool.noConfusion hb
    · rw [if_neg (by simp)]
      simp only [true_iff]
      intro c hc
      exact (check_composition_iff _).mp hb _ (List.mem_map.mpr ⟨c, hc, rfl⟩)
  · rw [pide.set_composition_solid_rock, if_neg (by simp [hrneg])]
    rcases hb : pide.check_composition (rcomps.map pide.rock_tot) with _ | _
    · rw [if_pos rfl]
      simp only [reduceCtorEq, false_iff]
      intro hall
      have : pide.check_composition (rcomps.map pide.rock_tot) = true := by
        rw [check_composition_iff]
        intro x hx
        obtain ⟨c, hc, rfl⟩ := List.mem_map.mp hx
        exact hall c hc
      rw [this] at hb
      exact Bool.noConfusion hb
    · rw [if_neg (by simp)]
      simp only [true_iff]
      intro c hc
      exact (check_composition_iff _).mp hb _ (List.mem_map.mpr ⟨c, hc, rfl⟩)

/-- Witness for the amended C2 at a concrete accepted composition
(`ol = 0.65, opx = 0.2, cpx = 0.1, garnet = 0.05`, the spec's own example). -/
theorem C2_composition_amended_witness :
    pide.set_composition_solid_mineral
        [{ quartz := 0, plag := 0, amp := 0, kfelds := 0, opx := 0.2, cpx := 0.1,
           mica := 0, garnet := 0.05, sulphide := 0, graphite := 0, ol := 0.65,
           sp := 0, rwd_wds := 0, perov := 0, mixture := 0, other := 0 }] = .ok () := by
  have h := C2_composition_amended
    [{ quartz := 0, plag := 0, amp := 0, kfelds := 0, opx := 0.2, cpx := 0.1,
       mica := 0, garnet := 0.05, sulphide := 0, graphite := 0, ol := 0.65,
       sp := 0, rwd_wds := 0, perov := 0, mixture := 0, other := 0 }] []
    (by intro c hc; simp at hc; subst hc; norm_num) (by intro c hc; simp at hc)
  refine h.1.mpr ?_
  intro c hc
  simp at hc
  subst hc
  norm_num [pide.mineral_tot]

namespace pide

/-- The closed form shared by all buffer branches of `calculate_fugacity`:
`10**((A / T) + B + ((C * ((p*1e4) - 1)) / T))`. -/
noncomputable def fugacity_form (A B C T p : ℝ) : ℝ :=
  (10 : ℝ) ^ (A / T + B + (C * ((p * 1e4) - 1)) / T)

/-- `pide.calculate_fugacity(mode)` (`pide/pide.py`, lines 3374–3439,
identically `SEL/SEL.py` lines 2829–2895), evaluated at one sample node
`(T, p)`.  The source vectorises over `self.T`/`self.p`; each element is
computed independently by exactly this case split:

* `mode == 0` (FMQ): piecewise at `T_crit = 846.0` with the `_low` constants
  for `T < T_crit` and the `_high` constants otherwise;
* `mode == 2` (QIF): likewise with the QIF constants;
* other modes index `A_list = [-999, -27489.0, -999, -24930.0, -30650.0]`,
  `B_list = [-999, 6.702, -999, 9.36, 8.92]`,
  `C_list = [-999, 0.055, -999, 0.046, 0.054]`
  (index 1 = IW, 3 = NNO, 4 = MMO).

A mode outside 0–4 raises an `IndexError` in the source; the claims only
concern modes 0–4, so the wildcard branch returns 0 here. -/
noncomputable def calculate_fugacity (mode : ℕ) (T p : ℝ) : ℝ :=
  match mode with
  | 0 => if T < 846.0 then fugacity_form (-26455.3) 10.344 0.092 T p
         else fugacity_form (-25096.3) 8.735 0.11 T p
  | 2 => if T < 846.0 then fugacity_form (-29435.7) 7.391 0.044 T p
         else fugacity_form (-29520.8) 7.492 0.05 T p
  | 1 => fugacity_form (-27489.0) 6.702 0.055 T p
  | 3 => fugacity_form (-24930.0) 9.36 0.046 T p
  | 4 => fugacity_form (-30650.0) 8.92 0.054 T p
  | _ => 0

end pide

/-- C3: `calculate_fugacity` returns `10^(A/T + B + C*((P*1e4) - 1)/T)` with
`(A,B,C) = (-27489, 6.702, 0.055)` for buffer 1 (IW), `(-24930, 9.36, 0.046)`
for buffer 3 (NNO), `(-30650, 8.92, 0.054)` for buffer 4 (MMO); FMQ (0) and
QIF (2) use the same closed form piecewise at `T_crit = 846 K`, FMQ with
`(-26455.3, 10.344, 0.092)` below 846 K and `(-25096.3, 8.735, 0.11)` at or
above, QIF with `(-29435.7, 7.391, 0.044)` below and `(-29520.8, 7.492, 0.05)`
at or above. -/
theorem C3_fugacity_buffers (T P : ℝ) (hT : 0 < T) :
    pide.calculate_fugacity 1 T P =
      (10 : ℝ) ^ ((-27489) / T + 6.702 + (0.055 * ((P * 1e4) - 1)) / T) ∧
    pide.calculate_fugacity 3 T P =
      (10 : ℝ) ^ ((-24930) / T + 9.36 + (0.046 * ((P * 1e4) - 1)) / T) ∧
    pide.calculate_fugacity 4 T P =
      (10 : ℝ) ^ ((-30650) / T + 8.92 + (0.054 * ((P * 1e4) - 1)) / T) ∧
    (T < 846 → pide.calculate_fugacity 0 T P =
      (10 : ℝ) ^ ((-26455.3) / T + 10.344 + (0.092 * ((P * 1e4) - 1)) / T)) ∧
    (846 ≤ T → pide.calculate_fugacity 0 T P =
      (10 : ℝ) ^ ((-25096.3) / T + 8.735 + (0.11 * ((P * 1e4) - 1)) / T)) ∧
    (T < 846 → pide.calculate_fugacity 2 T P =
      (10 : ℝ) ^ ((-29435.7) / T + 7.391 + (0.044 * ((P * 1e4) - 1)) / T)) ∧
    (846 ≤ T → pide.calculate_fugacity 2 T P =
      (10 : ℝ) ^ ((-29520.8) / T + 7.492 + (0.05 * ((P * 1e4) - 1)) / T)) := by
  have e : (846.0 : ℝ) = 846 := by norm_num
  refine ⟨?_, ?_, ?_, fun h => ?_, fun h => ?_, fun h => ?_, fun h => ?_⟩ <;>
    simp only [pide.calculate_fugacity, pide.fugacity_form, e]
  · norm_num
  · norm_num
  · norm_num
  · rw [if_pos h]
  · rw [if_neg (not_lt.mpr h)]
  · rw [if_pos h]
  · rw [if_neg (not_lt.mpr h)]

/-- Witness for C3 at `T = 900 K` (above `T_crit`), `P = 1 GPa`. -/
theorem C3_fugacity_buffers_witness :
    pide.calculate_fugacity 1 900 1 =
      (10 : ℝ) ^ ((-27489) / 900 + 6.702 + (0.055 * (((1:ℝ) * 1e4) - 1)) / 900) ∧
    pide.calculate_fugacity 0 900 1 =
      (10 : ℝ) ^ ((-25096.3) / 900 + 8.735 + (0.11 * (((1:ℝ) * 1e4) - 1)) / 900) := by
  have h := C3_fugacity_buffers 900 1 (by norm_num)
  exact ⟨h.1, h.2.2.2.2.1 (by norm_num)⟩

namespace pide

/-- Solid mixing method 3 of `pide.phase_mixing_function` (`pide/pide.py`,
lines 2673–2706): the parallel model

`bulk_cond = Σ phases (frac_i * cond_i)`

over the active phase set (9 rock or 16 mineral phases); each phase is a
`(fraction, conductivity)` pair. -/
def parallel_bulk (phases : List (ℚ × ℚ)) : ℚ :=
  (phases.map (fun pc => pc.1 * pc.2)).sum

/-- The zero-fraction sentinel substitution of solid mixing method 4
(`pide/pide.py`, lines 2721–2775): before the sum is formed, every phase with
`frac == 0.0` has its conductivity overwritten with `-999`. -/
def perp_eff_cond (frac cond : ℚ) : ℚ :=
  if frac = 0 then -999 else cond

/-- Solid mixing method 4 of `pide.phase_mixing_function` (`pide/pide.py`,
lines 2708–2801): the perpendicular (series) model

`bulk_cond = 1.0 / Σ phases (frac_i / cond_i)`

evaluated after the `-999` sentinel substitution for zero-fraction phases. -/
def perp_bulk (phases : List (ℚ × ℚ)) : ℚ :=
  1 / ((phases.map (fun pc => pc.1 / perp_eff_cond pc.1 pc.2)).sum)

end pide

/-- Each term of the perpendicular sum is non-negative when fractions are
non-negative and conductivities positive. -/
lemma perp_term_nonneg (f c : ℚ) (hf : 0 ≤ f) (hc : 0 < c) :
    0 ≤ f / pide.perp_eff_cond f c := by
  rw [pide.perp_eff_cond]
  rcases eq_or_lt_of_le hf with h0 | hpos
  · rw [if_pos h0.symm, ← h0]
    norm_num
  · rw [if_neg (ne_of_gt hpos)]
    positivity

/-- The perpendicular sum over non-negative fractions and positive
conductivities is non-negative. -/
lemma perp_sum_nonneg (phases : List (ℚ × ℚ))
    (h : ∀ pc ∈ phases, 0 ≤ pc.1 ∧ 0 < pc.2) :
    0 ≤ (phases.map (fun pc => pc.1 / pide.perp_eff_cond pc.1 pc.2)).sum := by
  apply List.sum_nonneg
  intro x hx
  obtain ⟨pc, hpc, rfl⟩ := List.mem_map.mp hx
  exact perp_term_nonneg pc.1 pc.2 (h pc hpc).1 (h pc hpc).2

/-- C4: with all phase conductivities fixed and positive (and the volume
fractions non-negative, as the composition invariant guarantees), the parallel
solid mixing law (method 3) is non-decreasing in any single phase's volume
fraction, and the perpendicular (series) law (method 4) is non-increasing in
any single phase's volume fraction.  The varying phase is the one between
`pre` and `post`; its fraction grows from `f` to `f'` with its conductivity
`c` unchanged.  For the perpendicular law one phase of the base configuration
must have a positive fraction (otherwise the source divides by an all-zero
sum). -/
theorem C4_mixing_monotonicity (pre post : List (ℚ × ℚ)) (f f' c : ℚ)
    (hff : f ≤ f')
    (hcpos : ∀ pc ∈ pre ++ (f, c) :: post, 0 ≤ pc.1 ∧ 0 < pc.2)
    (hbase : ∃ pc ∈ pre ++ (f, c) :: post, 0 < pc.1) :
    pide.parallel_bulk (pre ++ (f, c) :: post) ≤
      pide.parallel_bulk (pre ++ (f', c) :: post) ∧
    pide.perp_bulk (pre ++ (f', c) :: post) ≤
      pide.perp_bulk (pre ++ (f, c) :: post) := by
  have hc : 0 < c := (hcpos (f, c) (by simp)).2
  have hf0 : 0 ≤ f := (hcpos (f, c) (by simp)).1
  constructor
  · simp only [pide.parallel_bulk, List.map_append, List.map_cons, List.sum_append,
      List.sum_cons]
    have : f * c ≤ f' * c := mul_le_mul_of_nonneg_right hff (le_of_lt hc)
    linarith
  · have hterm : f / pide.perp_eff_cond f c ≤ f' / pide.perp_eff_cond f' c := by
      rcases eq_or_lt_of_le hf0 with h0 | hpos
      · rw [← h0]
        exact le_trans (by rw [pide.perp_eff_cond, if_pos rfl]; norm_num)
          (perp_term_nonneg f' c (le_trans hf0 hff) hc)
      · have hpos' : 0 < f' := lt_of_lt_of_le hpos hff
        rw [pide.perp_eff_cond, if_neg (ne_of_gt hpos), pide.perp_eff_cond,
          if_neg (ne_of_gt hpos')]
        exact div_le_div_of_nonneg_right hff hc.le |>.trans_eq rfl
    have hsums : (List.map (fun pc => pc.1 / pide.perp_eff_cond pc.1 pc.2)
          (pre ++ (f, c) :: post)).sum ≤
        (List.map (fun pc => pc.1 / pide.perp_eff_cond pc.1 pc.2)
          (pre ++ (f', c) :: post)).sum := by
      simp only [List.map_append, List.map_cons, List.sum_append, List.sum_cons]
      linarith
    have hbase_pos : 0 < (List.map (fun pc => pc.1 / pide.perp_eff_cond pc.1 pc.2)
        (pre ++ (f, c) :: post)).sum := by
      obtain ⟨pc, hpc, hpcpos⟩ := hbase
      have hmem : pc.1 / pide.perp_eff_cond pc.1 pc.2 ∈
          (List.map (fun q => q.1 / pide.perp_eff_cond q.1 q.2)
            (pre ++ (f, c) :: post)) := List.mem_map.mpr ⟨pc, hpc, rfl⟩
      have hterm_pos : 0 < pc.1 / pide.perp_eff_cond pc.1 pc.2 := by
        rw [pide.perp_eff_cond, if_neg (ne_of_gt hpcpos)]
        exact div_pos hpcpos (hcpos pc hpc).2
      calc 0 < pc.1 / pide.perp_eff_cond pc.1 pc.2 := hterm_pos
        _ ≤ _ := List.single_le_sum (fun x hx => by
            obtain ⟨q, hq, rfl⟩ := List.mem_map.mp hx
            exact perp_term_nonneg q.1 q.2 (hcpos q hq).1 (hcpos q hq).2) _ hmem
    rw [pide.perp_bulk, pide.perp_bulk]
    exact one_div_le_one_div_of_le hbase_pos hsums

/-- Witness for C4: two phases, the second one's fraction grows from 1/4 to
1/2 at fixed conductivities 2 and 1. -/
theorem C4_mixing_monotonicity_witness :
    pide.parallel_bulk [(1/2, 2), (1/4, 1)] ≤ pide.parallel_bulk [(1/2, 2), (1/2, 1)] ∧
    pide.perp_bulk [(1/2, 2), (1/2, 1)] ≤ pide.perp_bulk [(1/2, 2), (1/4, 1)] := by
  have h := C4_mixing_monotonicity [(1/2, 2)] [] (1/4) (1/2) 1
    (by norm_num)
    (by intro pc hpc; simp at hpc; rcases hpc with h | h <;> rw [h] <;> norm_num)
    ⟨(1/2, 2), by simp, by norm_num⟩
  simpa using h

/-- The per-iteration assignment of `Manthilake2021_Aqueous`
(`cate_src/cond_models/fluids_odd.py`, lines 78–86):

```
if T[i] > 673.0:
    cond = (10.0**2.4) * np.exp((-70000.0) / R_const * T[i])
else:
    cond = (10.0**-2.3) * np.exp((-80000.0) / R_const * T[i])
```

Note the Python operator precedence: `(-70000.0) / R_const * T[i]` is
`((-70000.0) / R_const) * T[i]`, not `(-70000.0) / (R_const * T[i])`. -/
noncomputable def Manthilake2021_step (t : ℝ) : ℝ :=
  if t > 673.0 then (10 : ℝ) ^ (2.4 : ℝ) * Real.exp ((-70000.0) / R_const * t)
  else (10 : ℝ) ^ (-2.3 : ℝ) * Real.exp ((-80000.0) / R_const * t)

/-- `Manthilake2021_Aqueous(T, P, NaCL, method)`
(`cate_src/cond_models/fluids_odd.py`, lines 78–86): the loop
`for i in range(0,len(T))` rebinds the scalar `cond` on every iteration, so
the function returns the value computed from the LAST element of `T` only
(`none` models the `NameError` on `cond` when `T` is empty).  `P`, `NaCL` and
`method` are unused by the source body. -/
noncomputable def Manthilake2021_Aqueous (T : List ℝ) : Option ℝ :=
  T.foldl (fun _ t => some (Manthilake2021_step t)) none

/-- C5 (code bug): at the failing input `T = [700.0]` (one sample, hotter than
673 K) the code returns `10^2.4 * exp((-70000/R) * 700)` — the activation
energy is divided by `R` and then MULTIPLIED by `T`, not divided by `R*T` as
the claim (and the Arrhenius form used everywhere else in the repository)
states — and the two values differ.  Moreover with two samples
`T = [700, 600]` the function returns the value of the last sample alone
rather than a per-sample array. -/
theorem C5_manthilake_code_bug :
    Manthilake2021_Aqueous [700] =
      some ((10 : ℝ) ^ (2.4 : ℝ) * Real.exp ((-70000) / R_const * 700)) ∧
    (10 : ℝ) ^ (2.4 : ℝ) * Real.exp ((-70000) / R_const * 700) ≠
      (10 : ℝ) ^ (2.4 : ℝ) * Real.exp ((-70000) / (R_const * 700)) ∧
    Manthilake2021_Aqueous [700, 600] =
      some ((10 : ℝ) ^ (-2.3 : ℝ) * Real.exp ((-80000) / R_const * 600)) := by
  refine ⟨?_, ?_, ?_⟩
  · simp only [Manthilake2021_Aqueous, List.foldl_cons, List.foldl_nil, Manthilake2021_step]
    rw [if_pos (by norm_num)]
    norm_num
  · intro hcontra
    have h10 : (0 : ℝ) < (10 : ℝ) ^ (2.4 : ℝ) := Real.rpow_pos_of_pos (by norm_num) _
    have hexp := mul_left_cancel₀ (ne_of_gt h10) hcontra
    have harg := Real.exp_injective hexp
    rw [R_const] at harg
    norm_num at harg
  · simp only [Manthilake2021_Aqueous, List.foldl_cons, List.foldl_nil, Manthilake2021_step]
    rw [if_neg (by norm_num)]
    norm_num

/-- `Ferot2012_OlSol(T, P, depth, h2o_fug, o2_fug, fe_ol, ti_ol, method)`
(`pide/pide_src/water_sol/ol_sol.py`, lines 6–10):

```
max_ol_h2o = 68.113 * np.exp(0.0080613 * depth / 1000.0)  * 0.666 #in ppm
```

The engine passes `depth = self.depth[idx_node]`, its depth state in km
(`set_depth`, `pide/pide.py` line 991: `self.depth = self.p * 33.0`). -/
noncomputable def Ferot2012_OlSol (T P depth h2o_fug o2_fug fe_ol ti_ol : ℝ) : ℝ :=
  68.113 * Real.exp (0.0080613 * depth / 1000.0) * 0.666

/-- The formula the claim (and the spec's §4.7) states for Ferot2012:
`68.113 * exp(0.0080613 * depth) * 0.666` with `depth` the engine's depth
value in km. -/
noncomputable def Ferot2012_OlSol_claimed (depth : ℝ) : ℝ :=
  68.113 * Real.exp (0.0080613 * depth) * 0.666

/-- C6 counterexample: at depth 100 km the code value and the claimed value
differ — the source divides the km depth by 1000 inside the exponent. -/
theorem C6_ferot_counterexample :
    Ferot2012_OlSol 0 0 100 0 0 0 0 ≠ Ferot2012_OlSol_claimed 100 := by
  rw [Ferot2012_OlSol, Ferot2012_OlSol_claimed]
  intro hcontra
  have h1 := mul_right_cancel₀ (by norm_num : (0.666 : ℝ) ≠ 0) hcontra
  have h2 := mul_left_cancel₀ (by norm_num : (68.113 : ℝ) ≠ 0) h1
  have harg := Real.exp_injective h2
  norm_num at harg

/-- C6 (amended): `Ferot2012_OlSol` returns the claimed published form
evaluated at `depth / 1000` — i.e. `68.113 * exp(0.0080613 * depth/1000) *
0.666` ppm for the engine's km depth. -/
theorem C6_ferot_amended (T P depth h2o_fug o2_fug fe_ol ti_ol : ℝ) :
    Ferot2012_OlSol T P depth h2o_fug o2_fug fe_ol ti_ol =
      Ferot2012_OlSol_claimed (depth / 1000) := by
  rw [Ferot2012_OlSol, Ferot2012_OlSol_claimed, mul_div_assoc]
  norm_num

namespace pide

/-- `pide.set_phase_interconnectivities` (`pide/pide.py`, lines 1759–1856),
the `overlookError = False` validation over the entered cementation-exponent
arrays: the source collects the sixteen mineral `*_m` arrays and the nine
rock `*_m` arrays into lists and raises a `ValueError` if
`np.flatnonzero(arr < 1)` is non-empty for any of them, minerals first. -/
def set_phase_interconnectivities (mineral_ms rock_ms : List (List ℚ)) :
    Except String Unit :=
  if mineral_ms.any (fun arr => arr.any (fun x => x < 1)) then
    .error "There is a value entered in mineral phase interconnectivities that apperas to be below 1."
  else if rock_ms.any (fun arr => arr.any (fun x => x < 1)) then
    .error "There is a value entered in rock phase interconnectivities that apperas to be below 1."
  else
    .ok ()

/-- `pide.set_melt_fluid_interconnectivity` (`pide/pide.py`, lines 1858–1879):
after `pide.melt_fluid_m` is populated, the guard is

```
if pide.melt_fluid_m.any() < 1.0:
    raise ValueError('The fluid_melt interconnectivity value is below 0, ...')
```

`ndarray.any()` returns a numpy bool — `True` iff some element is non-zero —
and Python compares that bool to `1.0` as `1` or `0`.  The guard therefore
fires exactly when every entry of the array is zero, not when an entry is
below 1. -/
def set_melt_fluid_interconnectivity (melt_fluid_m : List ℚ) : Except String Unit :=
  if (if melt_fluid_m.any (fun x => x ≠ 0) then (1 : ℚ) else 0) < 1.0 then
    .error "The fluid_melt interconnectivity value is below 0, which is not accepted."
  else
    .ok ()

end pide

/-- C7 (code bug): the solid-phase setter does raise on any entered value
below 1 (first conjunct, and its general form in the second conjunct), but
`set_melt_fluid_interconnectivity` accepts the failing input `0.5 < 1`
without error (third conjunct): its guard compares `ndarray.any()` — a
boolean — against `1.0`, so it raises only when all entries are zero (fourth
conjunct), not whenever a value is below 1 as the claim states. -/
theorem C7_interconnectivity_code_bug :
    pide.set_phase_interconnectivities [[(1:ℚ)/2]] [] =
      .error "There is a value entered in mineral phase interconnectivities that apperas to be below 1." ∧
    (∀ mineral_ms rock_ms : List (List ℚ), ∀ arr ∈ mineral_ms, ∀ x ∈ arr, x < 1 →
      ∃ e, pide.set_phase_interconnectivities mineral_ms rock_ms = .error e) ∧
    pide.set_melt_fluid_interconnectivity [(1:ℚ)/2] = .ok () ∧
    pide.set_melt_fluid_interconnectivity [0] =
      .error "The fluid_melt interconnectivity value is below 0, which is not accepted." := by
  refine ⟨?_, ?_, ?_, ?_⟩
  · rw [pide.set_phase_interconnectivities, if_pos]
    simp only [List.any_cons, List.any_nil, Bool.or_false, decide_eq_true_eq]
    norm_num
  · intro mineral_ms rock_ms arr harr x hx hlt
    refine ⟨"There is a value entered in mineral phase interconnectivities that apperas to be below 1.", ?_⟩
    rw [pide.set_phase_interconnectivities, if_pos]
    simp only [List.any_eq_true, decide_eq_true_eq]
    exact ⟨arr, harr, x, hx, hlt⟩
  · rw [pide.set_melt_fluid_interconnectivity, if_neg]
    simp only [List.any_cons, List.any_nil, Bool.or_false, decide_eq_true_eq]
    rw [if_pos (by norm_num)]
    norm_num
  · rw [pide.set_melt_fluid_interconnectivity, if_pos]
    simp only [List.any_cons, List.any_nil, Bool.or_false, decide_eq_true_eq]
    rw [if_neg (by norm_num)]
    norm_num

namespace Model

/-- One geodynamic material as `Model.calculate_conductivity` consumes it
(`pide/model.py`, lines 305–446): `idx` is the cell-index set produced by
`return_material_bool` for the material's label, and `value` the per-cell
conductivity that `run_model` (or `1.0 / resistivity_medium` for a
value-type material) computes for it. -/
structure Material where
  idx : List ℕ
  value : ℕ → ℚ

/-- One pass of the per-material assignment loop of
`Model.calculate_conductivity`: `cond[material_idx] = run_model(...)`,
materials processed in list order so a later material overwrites an earlier
one on shared cells. -/
def assign (cond : ℕ → ℚ) (m : Material) : ℕ → ℚ :=
  fun cell => if cell ∈ m.idx then m.value cell else cond cell

/-- `Model.calculate_conductivity` (`pide/model.py`, lines 305–446,
single-process `background` path; `SEL/model.py` line 200 performs the same
final conversion with `np.where(array == 0, np.nan, array)`):

```
cond = np.zeros_like(self.T)
for material in material_list:
    cond[material_idx] = run_model(...)
cond[cond == 0.0] = np.nan
```

The grid is flattened to `n` cells; `none` models NaN. -/
def calculate_conductivity (n : ℕ) (mats : List Material) : List (Option ℚ) :=
  let cond := mats.foldl assign (fun _ => 0)
  (List.range n).map (fun cell => if cond cell = 0 then none else some (cond cell))

/-- The conductivity the material list computes for a cell: the value of the
LAST material in list order whose index set contains the cell (later
assignments overwrite earlier ones), if any. -/
def last_owner_value : List Material → ℕ → Option ℚ
  | [], _ => none
  | m :: rest, cell =>
    match last_owner_value rest cell with
    | some v => some v
    | none => if cell ∈ m.idx then some (m.value cell) else none

end Model

/-- The fold of the assignment loop computes the last owning material's value
and leaves the initial array untouched elsewhere. -/
lemma foldl_assign_eq (mats : List Model.Material) (cond : ℕ → ℚ) (cell : ℕ) :
    (mats.foldl Model.assign cond) cell =
      match Model.last_owner_value mats cell with
      | some v => v
      | none => cond cell := by
  induction mats generalizing cond with
  | nil => rfl
  | cons m rest ih =>
    rw [List.foldl_cons, ih, Model.last_owner_value]
    rcases Model.last_owner_value rest cell with _ | v
    · simp only [Model.assign]
      rcases Decidable.em (cell ∈ m.idx) with hmem | hmem
      · rw [if_pos hmem, if_pos hmem]
      · rw [if_neg hmem, if_neg hmem]
    · rfl

/-- A cell belonging to no material in the list has no last owner. -/
lemma last_owner_value_eq_none (mats : List Model.Material) (cell : ℕ)
    (h : ∀ m ∈ mats, cell ∉ m.idx) : Model.last_owner_value mats cell = none := by
  induction mats with
  | nil => rfl
  | cons m rest ih =>
    rw [Model.last_owner_value, ih (fun q hq => h q (List.mem_cons_of_mem m hq))]
    rw [if_neg (h m (List.mem_cons_self m rest))]

/-- C8 counterexample: a one-cell grid with one material owning cell 0 whose
computed conductivity is exactly 0 (for example a configuration whose only
active mechanisms are disabled, making `calculate_arrhenian_single` and hence
the parallel-mixed bulk conductivity exactly 0.0): the final array holds NaN
at the material's own cell, not the material's computed value, because the
end-of-run conversion `cond[cond == 0.0] = np.nan` selects cells by VALUE,
not by material membership. -/
theorem C8_model_counterexample :
    (0 ∈ (Model.Material.mk [0] (fun _ => 0)).idx) ∧
    Model.calculate_conductivity 1 [Model.Material.mk [0] (fun _ => 0)] = [none] ∧
    Model.calculate_conductivity 1 [Model.Material.mk [0] (fun _ => 0)] ≠
      [some ((Model.Material.mk [0] (fun _ => 0)).value 0)] := by
  refine ⟨by simp, rfl, ?_⟩
  have heq : Model.calculate_conductivity 1 [Model.Material.mk [0] (fun _ => 0)] = [none] := rfl
  rw [heq]
  simp

/-- C8 (amended): at the end of a `Model.calculate_conductivity` run, every
grid cell that belongs to no material holds NaN, and every cell belonging to
some material holds the (last) owning material's computed per-cell
conductivity — UNLESS that computed value is exactly 0, in which case the
cell also holds NaN: the zero-to-NaN conversion is by value, not by
membership. -/
theorem C8_model_amended (n : ℕ) (mats : List Model.Material) (cell : ℕ)
    (hcell : cell < n) :
    ((∀ m ∈ mats, cell ∉ m.idx) →
      (Model.calculate_conductivity n mats).get? cell = some none) ∧
    (∀ v, Model.last_owner_value mats cell = some v →
      (Model.calculate_conductivity n mats).get? cell =
        some (if v = 0 then none else some v)) := by
  have hrange : (List.range n).get? cell = some cell := List.get?_range hcell
  have hbase : (Model.calculate_conductivity n mats).get? cell =
      some (if (mats.foldl Model.assign (fun _ => 0)) cell = 0 then none
        else some ((mats.foldl Model.assign (fun _ => 0)) cell)) := by
    rw [Model.calculate_conductivity]
    simp only [List.get?_map, hrange, Option.map_some']
  constructor
  · intro hnone
    rw [hbase, foldl_assign_eq, last_owner_value_eq_none mats cell hnone]
    norm_num
  · intro v hv
    rw [hbase, foldl_assign_eq, hv]

/-- Witness for the amended C8: a two-cell grid, one material owning cell 0
with computed conductivity 5; cell 1 (no material) ends as NaN, cell 0 ends
as 5. -/
theorem C8_model_amended_witness :
    (Model.calculate_conductivity 2 [Model.Material.mk [0] (fun _ => 5)]).get? 1 =
      some none ∧
    (Model.calculate_conductivity 2 [Model.Material.mk [0] (fun _ => 5)]).get? 0 =
      some (some 5) := by
  constructor
  · exact (C8_model_amended 2 [Model.Material.mk [0] (fun _ => 5)] 1 (by norm_num)).1
      (by intro m hm; simp at hm; rw [hm]; simp)
  · have h := (C8_model_amended 2 [Model.Material.mk [0] (fun _ => 5)] 0 (by norm_num)).2
      5 rfl
    rw [h]
    norm_num

namespace pide

/-- The class-level (`pide.*`) selection attributes that the claims exercise:
`pide.o2_buffer` (written by `set_o2_buffer`, `pide/pide.py` line 1026) and
`pide.phs_mix_method` (written by `set_solid_phs_mix_method`, line 1883). -/
structure ClassAttrs where
  o2_buffer : ℤ
  phs_mix_method : ℤ

/-- Python attribute state for one process: the class `__dict__` entries for
the two fields, plus each instance's own `__dict__` entry for them
(instances are numbered by `ℕ`).  No code path in `pide/pide.py` ever
assigns `self.o2_buffer` or `self.phs_mix_method`, so the per-instance
entries stay whatever they start as (for real engine objects: absent). -/
structure ProcessState where
  cls : ClassAttrs
  inst_o2_buffer : ℕ → Option ℤ
  inst_phs_mix_method : ℕ → Option ℤ

/-- `pide.set_o2_buffer(o2_buffer)` (`pide/pide.py`, lines 1023–1029), called
on instance `self`:

```
pide.o2_buffer = o2_buffer
if (pide.o2_buffer < 0) or (pide.o2_buffer > 4):
    raise ValueError(...)
```

The assignment targets the CLASS attribute (`pide.o2_buffer`, not
`self.o2_buffer`), regardless of which instance the method is invoked on;
note it happens before the validation. -/
def set_o2_buffer (s : ProcessState) (self : ℕ) (o2_buffer : ℤ) :
    ProcessState × Option String :=
  let s' := { s with cls := { s.cls with o2_buffer := o2_buffer } }
  (s', if o2_buffer < 0 ∨ 4 < o2_buffer then
    some "The oxygen fugacity buffer has entered incorrectly. The value has to be 0-FMQ, 1-IW, 2-QIF, 3-NNO, 4-MMO"
  else none)

/-- `pide.set_solid_phs_mix_method(method)` (`pide/pide.py`, lines 1881–1887),
called on instance `self`: `pide.phs_mix_method = method`, then the 0–6 range
check — again a class-attribute assignment. -/
def set_solid_phs_mix_method (s : ProcessState) (self : ℕ) (method : ℤ) :
    ProcessState × Option String :=
  let s' := { s with cls := { s.cls with phs_mix_method := method } }
  (s', if method < 0 ∨ 6 < method then
    some "The solid phase mixing method is not entered correctly, the value is not between 0 and 6"
  else none)

/-- Python attribute lookup `inst.o2_buffer`: the instance `__dict__` first,
falling back to the class attribute. -/
def getattr_o2_buffer (s : ProcessState) (inst : ℕ) : ℤ :=
  (s.inst_o2_buffer inst).getD s.cls.o2_buffer

/-- Python attribute lookup `inst.phs_mix_method`. -/
def getattr_phs_mix_method (s : ProcessState) (inst : ℕ) : ℤ :=
  (s.inst_phs_mix_method inst).getD s.cls.phs_mix_method

/-- The read the engine's calculations actually perform: the call sites
(`pide/pide.py` lines 2186, 2263, 3651 for `pide.o2_buffer`; lines 2998, 3082
for `pide.phs_mix_method`) read the CLASS attribute directly. -/
def read_o2_buffer_class (s : ProcessState) : ℤ := s.cls.o2_buffer

/-- The class-attribute read of `pide.phs_mix_method` at the calculation call
sites. -/
def read_phs_mix_method_class (s : ProcessState) : ℤ := s.cls.phs_mix_method

end pide

/-- C9: for any two engine instances `a` and `b` in one process, after `a`
calls `set_o2_buffer(x)` (resp. `set_solid_phs_mix_method(y)`), the field
observed through `b` — and the class-level value `b`'s subsequent
calculations read — equals `x` (resp. `y`): the setters store on the class,
not the instance, so the last instance to call a setter wins process-wide.
The hypotheses record that `b`'s own `__dict__` has no entry for the fields,
which holds for every engine instance since no code assigns them on `self`;
the setters are also shown to leave all instance dictionaries untouched. -/
theorem C9_class_level_configuration (s : pide.ProcessState) (a b : ℕ) (x y : ℤ)
    (hb1 : s.inst_o2_buffer b = none) (hb2 : s.inst_phs_mix_method b = none) :
    pide.getattr_o2_buffer ((pide.set_o2_buffer s a x).1) b = x ∧
    pide.read_o2_buffer_class ((pide.set_o2_buffer s a x).1) = x ∧
    pide.getattr_phs_mix_method ((pide.set_solid_phs_mix_method s a y).1) b = y ∧
    pide.read_phs_mix_method_class ((pide.set_solid_phs_mix_method s a y).1) = y ∧
    ((pide.set_o2_buffer s a x).1).inst_o2_buffer = s.inst_o2_buffer ∧
    ((pide.set_solid_phs_mix_method s a y).1).inst_phs_mix_method =
      s.inst_phs_mix_method := by
  refine ⟨?_, rfl, ?_, rfl, rfl, rfl⟩
  · rw [pide.getattr_o2_buffer]
    show (s.inst_o2_buffer b).getD x = x
    rw [hb1, Option.getD_none]
  · rw [pide.getattr_phs_mix_method]
    show (s.inst_phs_mix_method b).getD y = y
    rw [hb2, Option.getD_none]

/-- Witness for C9: a fresh process state with empty instance dictionaries,
instance 0 sets `o2_buffer = 3` and `phs_mix_method = 2`, instance 1 observes
both. -/
theorem C9_class_level_configuration_witness :
    pide.getattr_o2_buffer
      ((pide.set_o2_buffer ⟨⟨0, 0⟩, fun _ => none, fun _ => none⟩ 0 3).1) 1 = 3 ∧
    pide.getattr_phs_mix_method
      ((pide.set_solid_phs_mix_method ⟨⟨0, 0⟩, fun _ => none, fun _ => none⟩ 0 2).1) 1 = 2 := by
  have h := C9_class_level_configuration ⟨⟨0, 0⟩, fun _ => none, fun _ => none⟩ 0 1 3 2
    rfl rfl
  exact ⟨h.1, h.2.2.1⟩

/-- The water-density loop shared by `Sinmyo2016` and `Guo2019`
(`cate_src/cond_models/fluids_odd.py`, lines 12–20 and 47–55):

```
for i in range(0,len(P)):
    d = iapws.iapws08.SeaWater(T = T[i], P = P[i], S = 0)
    rho = d.rho / 1e3
    rho_water[i] = rho
```

`iapws_rho t p` stands for the external library's density
`iapws.iapws08.SeaWater(T=t, P=p, S=0).rho`.  The loop walks the indices of
`P`; reading `T[i]` past the end of `T` raises an `IndexError`.  The returned
`Option ℝ` is the binding of the scalar local `rho` after the loop: `none`
when the loop body never ran (so `rho` stays unbound). -/
noncomputable def rhoLoop (iapws_rho : ℝ → ℝ → ℝ) :
    List ℝ → List ℝ → Option ℝ → Except String (Option ℝ)
  | _, [], acc => .ok acc
  | [], _ :: _, _ => .error "IndexError: index out of bounds"
  | t :: ts, p :: ps, _ => rhoLoop iapws_rho ts ps (some (iapws_rho t p / 1e3))

/-- `Sinmyo2016(T, P, NaCL, method)` (`cate_src/cond_models/fluids_odd.py`,
lines 8–41).  After converting `P` to MPa and running the density loop, the
body computes `lambda_0 = lambda_1 + lambda_2*rho + lambda_3/T + lambda_4/T**2`
(using the scalar `rho` left over from the last loop iteration) and then
reaches the salinity guard

```
if S > 0:
```

where `S` is a local name that is never assigned anywhere in the function
(the `S = 0` inside the `SeaWater(...)` call is a keyword argument, not a
binding), so Python raises `NameError`; when the loop never ran, the unbound
`rho` inside `lambda_0` raises `NameError` first.  The conductivity
expressions after the guard are unreachable. -/
noncomputable def Sinmyo2016 (iapws_rho : ℝ → ℝ → ℝ) (T P NaCL : List ℝ) :
    Except String ℝ :=
  let Pm := P.map (fun p => p * 1e3)
  match rhoLoop iapws_rho T Pm none with
  | .error e => .error e
  | .ok none => .error "NameError: name rho is not defined"
  | .ok (some rho) =>
    let lambda_0 := T.map (fun t =>
      1573.0 + (-1212.0) * rho + 537062.0 / t + (-208122721.0) / t ^ (2 : ℕ))
    .error "NameError: name S is not defined"

/-- `Guo2019(T, P, NaCL, method)` (`cate_src/cond_models/fluids_odd.py`,
lines 43–76): identical control flow to `Sinmyo2016` (only the unreachable
`A`, `B`, `C`, `D` constants differ), including the unbound `S` in the
salinity guard. -/
noncomputable def Guo2019 (iapws_rho : ℝ → ℝ → ℝ) (T P NaCL : List ℝ) :
    Except String ℝ :=
  let Pm := P.map (fun p => p * 1e3)
  match rhoLoop iapws_rho T Pm none with
  | .error e => .error e
  | .ok none => .error "NameError: name rho is not defined"
  | .ok (some rho) =>
    let lambda_0 := T.map (fun t =>
      1573.0 + (-1212.0) * rho + 537062.0 / t + (-208122721.0) / t ^ (2 : ℕ))
    .error "NameError: name S is not defined"

/-- When the two arrays have equal length and are non-empty the density loop
completes and leaves `rho` bound. -/
lemma rhoLoop_completes (iapws_rho : ℝ → ℝ → ℝ) :
    ∀ P T : List ℝ, ∀ acc : Option ℝ, T.length = P.length → P ≠ [] →
      ∃ r, rhoLoop iapws_rho T P acc = .ok (some r) := by
  intro P
  induction P with
  | nil => intro T acc _ hne; exact absurd rfl hne
  | cons p ps ih =>
    intro T acc hlen hne
    rcases T with _ | ⟨t, ts⟩
    · simp at hlen
    · rcases ps with _ | ⟨p2, ps2⟩
      · rcases ts with _ | _
        · exact ⟨iapws_rho t p / 1e3, rfl⟩
        · simp at hlen
      · simp only [rhoLoop]
        exact ih ts (some (iapws_rho t p / 1e3)) (by simpa using hlen) (by simp)

/-- C10: for every input, `Sinmyo2016` and `Guo2019` raise an unhandled
error and never return a value; for well-formed inputs (equal-length,
non-empty arrays, as the fluid-conductivity dispatch supplies) that error is
precisely the name-resolution error on the undefined salinity variable `S`. -/
theorem C10_brine_models_never_return (iapws_rho : ℝ → ℝ → ℝ) (T P NaCL : List ℝ) :
    (∃ e, Sinmyo2016 iapws_rho T P NaCL = .error e) ∧
    (∃ e, Guo2019 iapws_rho T P NaCL = .error e) ∧
    (T.length = P.length → P ≠ [] →
      Sinmyo2016 iapws_rho T P NaCL = .error "NameError: name S is not defined" ∧
      Guo2019 iapws_rho T P NaCL = .error "NameError: name S is not defined") := by
  have hcases : ∀ e, rhoLoop iapws_rho T (P.map (fun p => p * 1e3)) none = e →
      (∃ msg, Sinmyo2016 iapws_rho T P NaCL = .error msg) ∧
      (∃ msg, Guo2019 iapws_rho T P NaCL = .error msg) := by
    rintro (e | o) h
    · exact ⟨⟨e, by rw [Sinmyo2016]; rw [h]⟩, ⟨e, by rw [Guo2019]; rw [h]⟩⟩
    · rcases o with _ | r
      · exact ⟨⟨_, by rw [Sinmyo2016]; rw [h]⟩, ⟨_, by rw [Guo2019]; rw [h]⟩⟩
      · exact ⟨⟨_, by rw [Sinmyo2016]; rw [h]⟩, ⟨_, by rw [Guo2019]; rw [h]⟩⟩
  obtain ⟨h1, h2⟩ := hcases _ rfl
  refine ⟨h1, h2, ?_⟩
  intro hlen hne
  obtain ⟨r, hr⟩ := rhoLoop_completes iapws_rho (P.map (fun p => p * 1e3)) T none
    (by simpa using hlen) (by simpa using hne)
  constructor
  · rw [Sinmyo2016]; rw [hr]
  · rw [Guo2019]; rw [hr]

/-- Witness for C10 at a concrete well-formed input (`T = [700]`,
`P = [1]`, `NaCl = [1]`, density function `fun t p => t + p`). -/
theorem C10_brine_models_never_return_witness :
    Sinmyo2016 (fun t p => t + p) [700] [1] [1] =
      .error "NameError: name S is not defined" ∧
    Guo2019 (fun t p => t + p) [700] [1] [1] =
      .error "NameError: name S is not defined" := by
  exact (C10_brine_models_never_return (fun t p => t + p) [700] [1] [1]).2.2
    rfl (by simp)
